import Mathlib

/-!
Shallow embedding of `src/apool.cpp` (asql connection pool).

Drivers (`ADriver *`) are modelled by their identity, a `Nat`. The driver
state observed at release time (`driver->state()`) is an input of the
release function, since the connection may die while checked out.
`std::function` callbacks are modelled by their identity (`Option Nat`,
`none` for an empty function object); invoking a callback is recorded as
an `Event`. A `QPointer<QObject>` receiver is modelled by the pair of
observations the code makes of it: whether it was non-null at enqueue
time (`checkReceiver = receiver;`) and what `isNull()` returns at the
moment the queued client is dequeued.

Counters and limits are `Int`, matching the C++ `int` fields (they are
settable to arbitrary values, including negative ones).
-/

namespace APool

/-- Observable driver state, as tested by `driver->state() == ADatabase::State::Disconnected`. -/
inductive AState where
  | Disconnected
  | Connected
  deriving DecidableEq, Repr

/-- `APoolQueuedClient`: a queued callback-style acquisition request.
`cb` is the continuation (none = empty `std::function`), `receiverNull`
is what `receiver.isNull()` returns when the client is dequeued, and
`checkReceiver` records whether a receiver was supplied at enqueue time. -/
structure APoolQueuedClient where
  cb : Option Nat
  receiverNull : Bool
  checkReceiver : Bool
  deriving DecidableEq, Repr

/-- `APoolInternal`: the per-pool mutable state. `pool` is the idle list
(`QVector<ADriver *>`, push_back at the end, takeLast from the end);
`connectionQueue` is the FIFO waiter queue (head = front). -/
structure APoolInternal where
  driverFactory : Nat
  pool : List Nat
  connectionQueue : List APoolQueuedClient
  setupCb : Option Nat
  reuseCb : Option Nat
  maxIdleConnections : Int
  maximuConnections : Int
  connectionCount : Int
  deriving DecidableEq, Repr

/-- A fresh `APoolInternal` as built by `APool::create`: given factory,
default limits `maxIdleConnections = 1`, `maximuConnections = 0`,
`connectionCount = 0`, empty idle list and waiter queue. -/
def APoolInternal.fresh (factory : Nat) : APoolInternal :=
  { driverFactory := factory
    pool := []
    connectionQueue := []
    setupCb := none
    reuseCb := none
    maxIdleConnections := 1
    maximuConnections := 0
    connectionCount := 0 }

/-- The thread-local `QHash<QString, APoolInternal> m_connectionPool`,
modelled as an association list with at most one entry per name. -/
abbrev Registry := List (String × APoolInternal)

/-- `m_connectionPool.find(name)` / `contains(name)`. -/
def Registry.find? : Registry → String → Option APoolInternal
  | [], _ => none
  | (k, v) :: rest, name => if k = name then some v else Registry.find? rest name

/-- Replace the value stored at `name` (used for in-place mutation through
the iterator returned by `find`). -/
def Registry.update : Registry → String → APoolInternal → Registry
  | [], _, _ => []
  | (k, v) :: rest, name, p =>
      if k = name then (k, p) :: rest else (k, v) :: Registry.update rest name p

/-- `m_connectionPool.remove(name)`. -/
def Registry.removeKey : Registry → String → Registry
  | [], _ => []
  | (k, v) :: rest, name =>
      if k = name then Registry.removeKey rest name
      else (k, v) :: Registry.removeKey rest name

/-- The value handed to callers: `ADatabase` whose `d` member wraps a
driver together with the pool name captured by the shared-ptr deleter
(`pushDatabaseBack(poolName, driver)`), i.e. the release protocol the
handle is tied to. -/
structure AHandle where
  driverId : Nat
  poolName : String
  deriving DecidableEq, Repr

/-- Observable effects of the pool code: driver deletion, invocation of a
continuation / setup hook / reuse hook with a handle (`none` = an
`ADatabase` with no driver behind it), and the diagnostics that the
claims mention. -/
inductive Event where
  | destroyed (driverId : Nat)
  | contInvoked (cb : Nat) (db : Option AHandle)
  | setupHookRun (cb : Nat) (db : Option AHandle)
  | reuseHookRun (cb : Nat) (db : Option AHandle)
  | warnMaxReached (poolName : String)
  | warnDuplicatePool (poolName : String)
  | critPoolNotFound (poolName : String)
  deriving DecidableEq, Repr

/-- Discriminator for lifecycle-hook events. -/
def Event.isHook : Event → Bool
  | .setupHookRun _ _ => true
  | .reuseHookRun _ _ => true
  | _ => false

/-- `APool::create`: insert a fresh pool if the name is absent, otherwise
warn and leave the registry untouched. -/
def create (factory : Nat) (poolName : String) (reg : Registry) :
    Registry × List Event :=
  match Registry.find? reg poolName with
  | none => ((poolName, APoolInternal.fresh factory) :: reg, [])
  | some _ => (reg, [Event.warnDuplicatePool poolName])

/-- `APool::remove`: erase the registry entry.  The `APoolInternal`
destructor frees the `QVector` of raw pointers and the queue of
`std::function`s without deleting any driver or invoking any callback,
so no event is produced. -/
def remove (poolName : String) (reg : Registry) : Registry × List Event :=
  (Registry.removeKey reg poolName, [])

/-- The waiter-scan loop of `pushDatabaseBack`: dequeue clients one by
one; a client with `(checkReceiver && receiver.isNull()) || !cb` is
discarded; the first valid client's callback is returned together with
the queue remaining behind it.  `none` means the whole queue was drained
without finding a valid client. -/
def serveQueue : List APoolQueuedClient → Option (Nat × List APoolQueuedClient)
  | [] => none
  | client :: rest =>
      match client.cb with
      | none => serveQueue rest
      | some cb =>
          if client.checkReceiver && client.receiverNull then serveQueue rest
          else some (cb, rest)

/-- A queued client that the scan would serve rather than discard:
its callback is non-empty and its receiver check does not fail. -/
def validClient (c : APoolQueuedClient) : Bool :=
  c.cb.isSome && !(c.checkReceiver && c.receiverNull)

/-- Result of a release: the updated registry, the events emitted, and
the handle handed to a waiter (if any), which stays checked out. -/
structure PushResult where
  reg : Registry
  events : List Event
  handOff : Option AHandle
  deriving DecidableEq, Repr

/-- `APool::pushDatabaseBack(connectionName, driver)` with the driver
state observed by `driver->state()` passed in as `observed`. -/
def pushDatabaseBack (connectionName : String) (driver : Nat) (observed : AState)
    (reg : Registry) : PushResult :=
  match Registry.find? reg connectionName with
  | some iPool =>
      if observed = AState.Disconnected then
        { reg := Registry.update reg connectionName
            { iPool with connectionCount := iPool.connectionCount - 1 }
          events := [Event.destroyed driver]
          handOff := none }
      else
        match serveQueue iPool.connectionQueue with
        | some (cb, restQueue) =>
            let db : AHandle := { driverId := driver, poolName := connectionName }
            { reg := Registry.update reg connectionName
                { iPool with connectionQueue := restQueue }
              events := [Event.contInvoked cb (some db)]
              handOff := some db }
        | none =>
            if iPool.maxIdleConnections ≤ (iPool.pool.length : Int) then
              { reg := Registry.update reg connectionName
                  { iPool with connectionQueue := [],
                               connectionCount := iPool.connectionCount - 1 }
                events := [Event.destroyed driver]
                handOff := none }
            else
              { reg := Registry.update reg connectionName
                  { iPool with connectionQueue := [],
                               pool := iPool.pool ++ [driver] }
                events := []
                handOff := none }
  | none =>
      { reg := reg, events := [Event.destroyed driver], handOff := none }

/-- Result of an acquisition: the handle built into the local `ADatabase db`
(`none` when `db.d` stays null), the updated registry, and the events. -/
structure AcqResult where
  db : Option AHandle
  reg : Registry
  events : List Event
  deriving DecidableEq, Repr

/-- Synchronous `APool::database(poolName)`.  `freshId` is the identity of
the driver `createRawDriver()` would produce if called. -/
def database (poolName : String) (freshId : Nat) (reg : Registry) : AcqResult :=
  match Registry.find? reg poolName with
  | some iPool =>
      match iPool.pool.getLast? with
      | none =>
          if iPool.maximuConnections ≠ 0 ∧
              iPool.maximuConnections ≤ iPool.connectionCount then
            { db := none, reg := reg, events := [Event.warnMaxReached poolName] }
          else
            let db : AHandle := { driverId := freshId, poolName := poolName }
            { db := some db
              reg := Registry.update reg poolName
                { iPool with connectionCount := iPool.connectionCount + 1 }
              events :=
                match iPool.setupCb with
                | some cb => [Event.setupHookRun cb (some db)]
                | none => [] }
      | some driver =>
          let db : AHandle := { driverId := driver, poolName := poolName }
          { db := some db
            reg := Registry.update reg poolName { iPool with pool := iPool.pool.dropLast }
            events :=
              match iPool.reuseCb with
              | some cb => [Event.reuseHookRun cb (some db)]
              | none => [] }
  | none =>
      { db := none, reg := reg, events := [Event.critPoolNotFound poolName] }

/-- Callback-style `APool::database(cb, receiver, poolName)`.
`receiverGiven` is whether a non-null receiver was supplied
(`queued.checkReceiver = receiver;`); `receiverNullAtDequeue` is what
`receiver.isNull()` will return if the queued client is later dequeued.
When the request is not queued, `cb(db)` is invoked at the end (when
`cb` is non-empty) and recorded as a `contInvoked` event. -/
def databaseCb (cb : Option Nat) (receiverGiven : Bool) (receiverNullAtDequeue : Bool)
    (poolName : String) (freshId : Nat) (reg : Registry) : AcqResult :=
  match Registry.find? reg poolName with
  | some iPool =>
      match iPool.pool.getLast? with
      | none =>
          if iPool.maximuConnections ≠ 0 ∧
              iPool.maximuConnections ≤ iPool.connectionCount then
            let queued : APoolQueuedClient :=
              { cb := cb
                receiverNull := receiverNullAtDequeue
                checkReceiver := receiverGiven }
            { db := none
              reg := Registry.update reg poolName
                { iPool with connectionQueue := iPool.connectionQueue ++ [queued] }
              events := [] }
          else
            let db : AHandle := { driverId := freshId, poolName := poolName }
            { db := some db
              reg := Registry.update reg poolName
                { iPool with connectionCount := iPool.connectionCount + 1 }
              events :=
                (match iPool.setupCb with
                 | some c => [Event.setupHookRun c (some db)]
                 | none => []) ++
                (match cb with
                 | some c => [Event.contInvoked c (some db)]
                 | none => []) }
      | some driver =>
          let db : AHandle := { driverId := driver, poolName := poolName }
          { db := some db
            reg := Registry.update reg poolName { iPool with pool := iPool.pool.dropLast }
            events :=
              (match iPool.reuseCb with
               | some c => [Event.reuseHookRun c (some db)]
               | none => []) ++
              (match cb with
               | some c => [Event.contInvoked c (some db)]
               | none => []) }
  | none =>
      { db := none
        reg := reg
        events :=
          [Event.critPoolNotFound poolName] ++
          (match cb with
           | some c => [Event.contInvoked c none]
           | none => []) }

/-- `APool::setMaxIdleConnections`. -/
def setMaxIdleConnections (max : Int) (poolName : String) (reg : Registry) :
    Registry × List Event :=
  match Registry.find? reg poolName with
  | some iPool =>
      (Registry.update reg poolName { iPool with maxIdleConnections := max }, [])
  | none => (reg, [Event.critPoolNotFound poolName])

/-- `APool::setMaxConnections`. -/
def setMaxConnections (max : Int) (poolName : String) (reg : Registry) :
    Registry × List Event :=
  match Registry.find? reg poolName with
  | some iPool =>
      (Registry.update reg poolName { iPool with maximuConnections := max }, [])
  | none => (reg, [Event.critPoolNotFound poolName])

/-- `APool::setSetupCallback`. -/
def setSetupCallback (cb : Option Nat) (poolName : String) (reg : Registry) :
    Registry × List Event :=
  match Registry.find? reg poolName with
  | some iPool =>
      (Registry.update reg poolName { iPool with setupCb := cb }, [])
  | none => (reg, [Event.critPoolNotFound poolName])

/-- `APool::setReuseCallback`. -/
def setReuseCallback (cb : Option Nat) (poolName : String) (reg : Registry) :
    Registry × List Event :=
  match Registry.find? reg poolName with
  | some iPool =>
      (Registry.update reg poolName { iPool with reuseCb := cb }, [])
  | none => (reg, [Event.critPoolNotFound poolName])

/-- `APool::currentConnections`. -/
def currentConnections (poolName : String) (reg : Registry) : Int :=
  match Registry.find? reg poolName with
  | some iPool => iPool.connectionCount
  | none => 0

/-!
A small operational model over one pool, used to state whole-trace
invariants: the registry together with the multiset of `ADatabase`
handles currently checked out (a handle created by an acquisition, or
handed to a waiter by a release, stays checked out until its release op)
and the supply of fresh driver identities.
-/

/-- One client-visible operation on a pool named `pn`.  `release idx s`
drops the `idx`-th currently checked-out handle, with `s` the driver
state its release observes. -/
inductive Op where
  | acquireSync
  | acquireCb (cb : Nat) (receiverGiven : Bool) (receiverNullAtDequeue : Bool)
  | release (idx : Nat) (observed : AState)
  | setMaxIdle (m : Int)
  | setMaxTotal (m : Int)
  | setSetup (cb : Option Nat)
  | setReuse (cb : Option Nat)
  deriving DecidableEq, Repr

/-- Whole-system simulation state. -/
structure Sim where
  reg : Registry
  checkedOut : List AHandle
  nextId : Nat
  deriving DecidableEq, Repr

/-- State right after `create(factory, pn)` on an empty registry. -/
def Sim.init (factory : Nat) (pn : String) : Sim :=
  { reg := (create factory pn []).1, checkedOut := [], nextId := 0 }

/-- Execute one operation against the pool named `pn`. -/
def stepOp (pn : String) (g : Sim) : Op → Sim
  | .acquireSync =>
      let r := database pn g.nextId g.reg
      { reg := r.reg, checkedOut := g.checkedOut ++ r.db.toList, nextId := g.nextId + 1 }
  | .acquireCb cb rg rn =>
      let r := databaseCb (some cb) rg rn pn g.nextId g.reg
      { reg := r.reg, checkedOut := g.checkedOut ++ r.db.toList, nextId := g.nextId + 1 }
  | .release idx observed =>
      match g.checkedOut[idx]? with
      | none => g
      | some h =>
          let r := pushDatabaseBack h.poolName h.driverId observed g.reg
          { reg := r.reg
            checkedOut := g.checkedOut.eraseIdx idx ++ r.handOff.toList
            nextId := g.nextId }
  | .setMaxIdle m => { g with reg := (setMaxIdleConnections m pn g.reg).1 }
  | .setMaxTotal m => { g with reg := (setMaxConnections m pn g.reg).1 }
  | .setSetup cb => { g with reg := (setSetupCallback cb pn g.reg).1 }
  | .setReuse cb => { g with reg := (setReuseCallback cb pn g.reg).1 }

/-- Run a sequence of operations. -/
def runOps (pn : String) (g : Sim) : List Op → Sim
  | [] => g
  | op :: rest => runOps pn (stepOp pn g op) rest

/-- The pool-state invariants claimed by the spec, evaluated on a
simulation state: `liveCount = idle + checked out`, `idle ≤ maxIdle`,
and `maxTotal = 0 ∨ liveCount ≤ maxTotal`. -/
def poolInvariants (pn : String) (g : Sim) : Prop :=
  match Registry.find? g.reg pn with
  | some p =>
      p.connectionCount = (p.pool.length : Int) + (g.checkedOut.length : Int)
      ∧ (p.pool.length : Int) ≤ p.maxIdleConnections
      ∧ (p.maximuConnections = 0 ∨ p.connectionCount ≤ p.maximuConnections)
  | none => False

instance (pn : String) (g : Sim) : Decidable (poolInvariants pn g) := by
  unfold poolInvariants
  match Registry.find? g.reg pn with
  | some p => exact inferInstanceAs (Decidable (_ ∧ _ ∧ _))
  | none => exact inferInstanceAs (Decidable False)

/-- A configuration mutation is harmless when it does not move a limit
below what the pool currently holds. -/
def opOk (pn : String) (g : Sim) : Op → Bool
  | .setMaxIdle m =>
      match Registry.find? g.reg pn with
      | some p => decide ((p.pool.length : Int) ≤ m)
      | none => true
  | .setMaxTotal m =>
      match Registry.find? g.reg pn with
      | some p => decide (m = 0 ∨ p.connectionCount ≤ m)
      | none => true
  | _ => true

/-- `opOk` holding at every step of a trace. -/
def okTrace (pn : String) (g : Sim) : List Op → Bool
  | [] => true
  | op :: rest => opOk pn g op && okTrace pn (stepOp pn g op) rest

/-- Strengthened invariant for the induction: the claimed pool
invariants plus the fact that every checked-out handle is tied to the
pool under consideration. -/
def SimInv (pn : String) (g : Sim) : Prop :=
  poolInvariants pn g ∧ ∀ h ∈ g.checkedOut, h.poolName = pn

/-! ### Registry and queue lemmas -/

theorem Registry.find?_update_self {reg : Registry} {k : String} {q : APoolInternal}
    (hf : Registry.find? reg k = some q) (p : APoolInternal) :
    Registry.find? (Registry.update reg k p) k = some p := by
  induction reg with
  | nil => simp [Registry.find?] at hf
  | cons kv rest ih =>
      by_cases hk : kv.1 = k
      · simp [Registry.update, Registry.find?, hk]
      · simp only [Registry.update, Registry.find?, hk, if_false] at hf ⊢
        exact ih hf

theorem Registry.find?_removeKey_self (reg : Registry) (k : String) :
    Registry.find? (Registry.removeKey reg k) k = none := by
  induction reg with
  | nil => simp [Registry.removeKey, Registry.find?]
  | cons kv rest ih =>
      by_cases hk : kv.1 = k
      · simpa [Registry.removeKey, hk] using ih
      · simpa [Registry.removeKey, Registry.find?, hk] using ih

theorem Registry.find?_removeKey_other (reg : Registry) {k q : String} (hq : q ≠ k) :
    Registry.find? (Registry.removeKey reg k) q = Registry.find? reg q := by
  induction reg with
  | nil => simp [Registry.removeKey]
  | cons kv rest ih =>
      by_cases hk : kv.1 = k
      · have hkq : ¬(k = q) := fun h => hq h.symm
        simp [Registry.removeKey, Registry.find?, hk, hkq, ih]
      · by_cases hkq : kv.1 = q
        · simp [Registry.removeKey, Registry.find?, hk, hkq, hq]
        · simp [Registry.removeKey, Registry.find?, hk, hkq, ih]

theorem serveQueue_skip {pre : List APoolQueuedClient} {w : APoolQueuedClient}
    {post : List APoolQueuedClient} {cbv : Nat}
    (hpre : ∀ c ∈ pre, validClient c = false) (hcb : w.cb = some cbv)
    (hchk : (w.checkReceiver && w.receiverNull) = false) :
    serveQueue (pre ++ w :: post) = some (cbv, post) := by
  induction pre with
  | nil => simp [serveQueue, hcb, hchk]
  | cons c rest ih =>
      have hc := hpre c (List.mem_cons_self c rest)
      have hrest : ∀ c ∈ rest, validClient c = false := fun x hx =>
        hpre x (List.mem_cons_of_mem c hx)
      simp only [validClient, Bool.and_eq_false_iff] at hc
      cases hcc : c.cb with
      | none => simpa [serveQueue, hcc] using ih hrest
      | some v =>
          have hrc : (c.checkReceiver && c.receiverNull) = true := by
            rcases hc with h | h
            · simp [hcc] at h
            · simpa using h
          simpa [serveQueue, hcc, hrc] using ih hrest

theorem serveQueue_none {q : List APoolQueuedClient}
    (hq : ∀ c ∈ q, validClient c = false) :
    serveQueue q = none := by
  induction q with
  | nil => rfl
  | cons c rest ih =>
      have hc := hq c (List.mem_cons_self c rest)
      have hrest : ∀ x ∈ rest, validClient x = false := fun x hx =>
        hq x (List.mem_cons_of_mem c hx)
      cases hcc : c.cb with
      | none => simpa [serveQueue, hcc] using ih hrest
      | some v =>
          have : (c.checkReceiver && c.receiverNull) = true := by
            simp only [validClient, hcc, Option.isSome_some, Bool.true_and,
              Bool.not_eq_false'] at hc
            exact hc
          simpa [serveQueue, hcc, this] using ih hrest

theorem poolInvariants_iff (pn : String) (g : Sim) :
    poolInvariants pn g ↔ ∃ p, Registry.find? g.reg pn = some p ∧
      (p.connectionCount = (p.pool.length : Int) + (g.checkedOut.length : Int)
       ∧ (p.pool.length : Int) ≤ p.maxIdleConnections
       ∧ (p.maximuConnections = 0 ∨ p.connectionCount ≤ p.maximuConnections)) := by
  cases hf : Registry.find? g.reg pn with
  | none => simp [poolInvariants, hf]
  | some p => simp [poolInvariants, hf]

theorem simInv_of (pn : String) (g : Sim) (p : APoolInternal)
    (hf : Registry.find? g.reg pn = some p)
    (h1 : p.connectionCount = (p.pool.length : Int) + (g.checkedOut.length : Int))
    (h2 : (p.pool.length : Int) ≤ p.maxIdleConnections)
    (h3 : p.maximuConnections = 0 ∨ p.connectionCount ≤ p.maximuConnections)
    (hco : ∀ h ∈ g.checkedOut, h.poolName = pn) : SimInv pn g :=
  ⟨(poolInvariants_iff pn g).mpr ⟨p, hf, h1, h2, h3⟩, hco⟩


theorem simInv_step (pn : String) (g : Sim) (op : Op)
    (hinv : SimInv pn g) (hok : opOk pn g op = true) : SimInv pn (stepOp pn g op) := by
  obtain ⟨hpi, hco⟩ := hinv
  rw [poolInvariants_iff] at hpi
  obtain ⟨p, hf, h1, h2, h3⟩ := hpi
  cases op with
  | acquireSync =>
      cases hlast : p.pool.getLast? with
      | none =>
          have hpool : p.pool = [] := List.getLast?_eq_none_iff.mp hlast
          have hl0 : p.pool.length = 0 := by rw [hpool]; rfl
          by_cases hcap : p.maximuConnections ≠ 0 ∧
              p.maximuConnections ≤ p.connectionCount
          · simp [stepOp, database, hf, hlast, hcap]
            exact simInv_of pn _ p hf h1 h2 h3 hco
          · simp [stepOp, database, hf, hlast, hcap]
            refine simInv_of pn _ { p with connectionCount := p.connectionCount + 1 }
              (Registry.find?_update_self hf _) ?_ h2 ?_ ?_
            · dsimp only
              simp only [List.length_append, List.length_cons, List.length_nil]
              push_cast
              omega
            · rcases not_and_or.mp hcap with hz | hlt
              · exact Or.inl (not_not.mp hz)
              · exact Or.inr (by dsimp only; omega)
            · intro x hx
              rcases List.mem_append.mp hx with hx | hx
              · exact hco x hx
              · simp only [List.mem_singleton] at hx
                subst hx
                rfl
      | some driver =>
          have hne : p.pool ≠ [] := by
            rw [← List.getLast?_isSome]
            rw [hlast]
            rfl
          have hlen : 0 < p.pool.length := List.length_pos.mpr hne
          have hdrop : p.pool.dropLast.length = p.pool.length - 1 :=
            List.length_dropLast p.pool
          simp [stepOp, database, hf, hlast]
          refine simInv_of pn _ { p with pool := p.pool.dropLast }
            (Registry.find?_update_self hf _) ?_ ?_ h3 ?_
          · dsimp only
            simp only [List.length_append, List.length_cons, List.length_nil]
            push_cast
            omega
          · dsimp only
            omega
          · intro x hx
            rcases List.mem_append.mp hx with hx | hx
            · exact hco x hx
            · simp only [List.mem_singleton] at hx
              subst hx
              rfl
  | acquireCb cb rg rn =>
      cases hlast : p.pool.getLast? with
      | none =>
          have hpool : p.pool = [] := List.getLast?_eq_none_iff.mp hlast
          have hl0 : p.pool.length = 0 := by rw [hpool]; rfl
          by_cases hcap : p.maximuConnections ≠ 0 ∧
              p.maximuConnections ≤ p.connectionCount
          · simp [stepOp, databaseCb, hf, hlast, hcap]
            exact simInv_of pn _ { p with connectionQueue :=
                p.connectionQueue ++ [{ cb := some cb, receiverNull := rn,
                                        checkReceiver := rg }] }
              (Registry.find?_update_self hf _) h1 h2 h3 hco
          · simp [stepOp, databaseCb, hf, hlast, hcap]
            refine simInv_of pn _ { p with connectionCount := p.connectionCount + 1 }
              (Registry.find?_update_self hf _) ?_ h2 ?_ ?_
            · dsimp only
              simp only [List.length_append, List.length_cons, List.length_nil]
              push_cast
              omega
            · rcases not_and_or.mp hcap with hz | hlt
              · exact Or.inl (not_not.mp hz)
              · exact Or.inr (by dsimp only; omega)
            · intro x hx
              rcases List.mem_append.mp hx with hx | hx
              · exact hco x hx
              · simp only [List.mem_singleton] at hx
                subst hx
                rfl
      | some driver =>
          have hne : p.pool ≠ [] := by
            rw [← List.getLast?_isSome]
            rw [hlast]
            rfl
          have hlen : 0 < p.pool.length := List.length_pos.mpr hne
          have hdrop : p.pool.dropLast.length = p.pool.length - 1 :=
            List.length_dropLast p.pool
          simp [stepOp, databaseCb, hf, hlast]
          refine simInv_of pn _ { p with pool := p.pool.dropLast }
            (Registry.find?_update_self hf _) ?_ ?_ h3 ?_
          · dsimp only
            simp only [List.length_append, List.length_cons, List.length_nil]
            push_cast
            omega
          · dsimp only
            omega
          · intro x hx
            rcases List.mem_append.mp hx with hx | hx
            · exact hco x hx
            · simp only [List.mem_singleton] at hx
              subst hx
              rfl
  | release idx observed =>
      cases hget : g.checkedOut[idx]? with
      | none =>
          simp only [stepOp, hget]
          exact simInv_of pn g p hf h1 h2 h3 hco
      | some h =>
          obtain ⟨hidx, hh⟩ := List.getElem?_eq_some.mp hget
          have hpn : h.poolName = pn := hco h (hh ▸ List.getElem_mem hidx)
          have herase : (g.checkedOut.eraseIdx idx).length = g.checkedOut.length - 1 := by
            rw [List.length_eraseIdx]
            simp [hidx]
          have hcoerase : ∀ x ∈ g.checkedOut.eraseIdx idx, x.poolName = pn :=
            fun x hx => hco x (List.eraseIdx_subset _ _ hx)
          cases observed with
          | Disconnected =>
              simp [stepOp, hget, hpn, pushDatabaseBack, hf]
              refine simInv_of pn _ { p with connectionCount := p.connectionCount - 1 }
                (Registry.find?_update_self hf _) ?_ h2 ?_ hcoerase
              · dsimp only
                omega
              · rcases h3 with h3 | h3
                · exact Or.inl h3
                · exact Or.inr (by dsimp only; omega)
          | Connected =>
              cases hserve : serveQueue p.connectionQueue with
              | some pair =>
                  simp [stepOp, hget, hpn, pushDatabaseBack, hf, hserve]
                  refine simInv_of pn _ { p with connectionQueue := pair.2 }
                    (Registry.find?_update_self hf _) ?_ h2 h3 ?_
                  · dsimp only
                    simp only [List.length_append, List.length_cons, List.length_nil]
                    push_cast
                    omega
                  · intro x hx
                    rcases List.mem_append.mp hx with hx | hx
                    · exact hcoerase x hx
                    · simp only [List.mem_singleton] at hx
                      subst hx
                      rfl
              | none =>
                  by_cases hidle : p.maxIdleConnections ≤ (p.pool.length : Int)
                  · simp [stepOp, hget, hpn, pushDatabaseBack, hf, hserve, hidle]
                    refine simInv_of pn _
                      { p with connectionQueue := [],
                               connectionCount := p.connectionCount - 1 }
                      (Registry.find?_update_self hf _) ?_ h2 ?_ hcoerase
                    · dsimp only
                      omega
                    · rcases h3 with h3 | h3
                      · exact Or.inl h3
                      · exact Or.inr (by dsimp only; omega)
                  · simp [stepOp, hget, hpn, pushDatabaseBack, hf, hserve, hidle]
                    refine simInv_of pn _
                      { p with connectionQueue := [], pool := p.pool ++ [h.driverId] }
                      (Registry.find?_update_self hf _) ?_ ?_ h3 hcoerase
                    · dsimp only
                      simp only [List.length_append, List.length_cons, List.length_nil]
                      push_cast
                      omega
                    · dsimp only
                      simp only [List.length_append, List.length_cons, List.length_nil]
                      push_cast
                      omega
  | setMaxIdle m =>
      simp only [opOk, hf, decide_eq_true_eq] at hok
      simp [stepOp, setMaxIdleConnections, hf]
      exact simInv_of pn _ { p with maxIdleConnections := m }
        (Registry.find?_update_self hf _) h1 hok h3 hco
  | setMaxTotal m =>
      simp only [opOk, hf, decide_eq_true_eq] at hok
      simp [stepOp, setMaxConnections, hf]
      exact simInv_of pn _ { p with maximuConnections := m }
        (Registry.find?_update_self hf _) h1 h2 hok hco
  | setSetup cb =>
      simp [stepOp, setSetupCallback, hf]
      exact simInv_of pn _ { p with setupCb := cb }
        (Registry.find?_update_self hf _) h1 h2 h3 hco
  | setReuse cb =>
      simp [stepOp, setReuseCallback, hf]
      exact simInv_of pn _ { p with reuseCb := cb }
        (Registry.find?_update_self hf _) h1 h2 h3 hco

theorem simInv_init (factory : Nat) (pn : String) : SimInv pn (Sim.init factory pn) := by
  refine simInv_of pn _ (APoolInternal.fresh factory) ?_ ?_ ?_ ?_ ?_
  · simp [Sim.init, create, Registry.find?]
  · simp [Sim.init, APoolInternal.fresh]
  · simp [APoolInternal.fresh]
  · exact Or.inl rfl
  · intro h hh
    simp [Sim.init] at hh

theorem simInv_runOps (pn : String) (ops : List Op) (g : Sim)
    (hinv : SimInv pn g) (hok : okTrace pn g ops = true) :
    SimInv pn (runOps pn g ops) := by
  induction ops generalizing g with
  | nil => exact hinv
  | cons op rest ih =>
      simp only [okTrace, Bool.and_eq_true] at hok
      exact ih _ (simInv_step pn g op hinv hok.1) hok.2

/-- C1: releasing a connected driver into a pool whose waiter queue holds a
valid waiter `w` behind a prefix of invalid waiters hands that exact driver
to `w`: the invalid prefix is dequeued and discarded, `w`'s continuation is
invoked with a new handle wrapping this driver and tied to this pool's
release protocol, that handle is the hand-off, and the pool keeps its exact
idle list and `connectionCount` with only the scanned waiters removed. -/
theorem pushDatabaseBack_handoff_first_valid_waiter
    (reg : Registry) (pn : String) (iPool : APoolInternal) (driver : Nat)
    (observed : AState) (pre post : List APoolQueuedClient)
    (w : APoolQueuedClient) (cbv : Nat)
    (hf : Registry.find? reg pn = some iPool)
    (hobs : observed ≠ AState.Disconnected)
    (hq : iPool.connectionQueue = pre ++ w :: post)
    (hpre : ∀ c ∈ pre, validClient c = false)
    (hcb : w.cb = some cbv)
    (hrecv : (w.checkReceiver && w.receiverNull) = false) :
    (pushDatabaseBack pn driver observed reg).events =
      [Event.contInvoked cbv (some { driverId := driver, poolName := pn })] ∧
    (pushDatabaseBack pn driver observed reg).handOff =
      some { driverId := driver, poolName := pn } ∧
    Registry.find? (pushDatabaseBack pn driver observed reg).reg pn =
      some { iPool with connectionQueue := post } := by
  have hserve : serveQueue iPool.connectionQueue = some (cbv, post) := by
    rw [hq]
    exact serveQueue_skip hpre hcb hrecv
  refine ⟨?_, ?_, ?_⟩
  · simp [pushDatabaseBack, hf, hserve, hobs]
  · simp [pushDatabaseBack, hf, hserve, hobs]
  · simp only [pushDatabaseBack, hf, hserve, hobs, if_false]
    exact Registry.find?_update_self hf _

/-- C1 witness: a concrete release with one continuation-less waiter and one
expired waiter ahead of a valid waiter. -/
theorem pushDatabaseBack_handoff_first_valid_waiter_witness :
    (pushDatabaseBack "p" 7 AState.Connected
        [("p", { driverFactory := 0, pool := [3],
                 connectionQueue :=
                   [{ cb := none, receiverNull := false, checkReceiver := false },
                    { cb := some 4, receiverNull := true, checkReceiver := true },
                    { cb := some 9, receiverNull := false, checkReceiver := true },
                    { cb := some 5, receiverNull := false, checkReceiver := false }],
                 setupCb := none, reuseCb := none, maxIdleConnections := 1,
                 maximuConnections := 2, connectionCount := 2 })]).events =
      [Event.contInvoked 9 (some { driverId := 7, poolName := "p" })] ∧
    (pushDatabaseBack "p" 7 AState.Connected
        [("p", { driverFactory := 0, pool := [3],
                 connectionQueue :=
                   [{ cb := none, receiverNull := false, checkReceiver := false },
                    { cb := some 4, receiverNull := true, checkReceiver := true },
                    { cb := some 9, receiverNull := false, checkReceiver := true },
                    { cb := some 5, receiverNull := false, checkReceiver := false }],
                 setupCb := none, reuseCb := none, maxIdleConnections := 1,
                 maximuConnections := 2, connectionCount := 2 })]).handOff =
      some { driverId := 7, poolName := "p" } ∧
    Registry.find? (pushDatabaseBack "p" 7 AState.Connected
        [("p", { driverFactory := 0, pool := [3],
                 connectionQueue :=
                   [{ cb := none, receiverNull := false, checkReceiver := false },
                    { cb := some 4, receiverNull := true, checkReceiver := true },
                    { cb := some 9, receiverNull := false, checkReceiver := true },
                    { cb := some 5, receiverNull := false, checkReceiver := false }],
                 setupCb := none, reuseCb := none, maxIdleConnections := 1,
                 maximuConnections := 2, connectionCount := 2 })]).reg "p" =
      some { driverFactory := 0, pool := [3],
             connectionQueue :=
               [{ cb := some 5, receiverNull := false, checkReceiver := false }],
             setupCb := none, reuseCb := none, maxIdleConnections := 1,
             maximuConnections := 2, connectionCount := 2 } :=
  pushDatabaseBack_handoff_first_valid_waiter
    [("p", { driverFactory := 0, pool := [3],
             connectionQueue :=
               [{ cb := none, receiverNull := false, checkReceiver := false },
                { cb := some 4, receiverNull := true, checkReceiver := true },
                { cb := some 9, receiverNull := false, checkReceiver := true },
                { cb := some 5, receiverNull := false, checkReceiver := false }],
             setupCb := none, reuseCb := none, maxIdleConnections := 1,
             maximuConnections := 2, connectionCount := 2 })]
    "p"
    { driverFactory := 0, pool := [3],
      connectionQueue :=
        [{ cb := none, receiverNull := false, checkReceiver := false },
         { cb := some 4, receiverNull := true, checkReceiver := true },
         { cb := some 9, receiverNull := false, checkReceiver := true },
         { cb := some 5, receiverNull := false, checkReceiver := false }],
      setupCb := none, reuseCb := none, maxIdleConnections := 1,
      maximuConnections := 2, connectionCount := 2 }
    7 AState.Connected
    [{ cb := none, receiverNull := false, checkReceiver := false },
     { cb := some 4, receiverNull := true, checkReceiver := true }]
    [{ cb := some 5, receiverNull := false, checkReceiver := false }]
    { cb := some 9, receiverNull := false, checkReceiver := true } 9
    (by decide) (by decide) rfl (by decide) rfl rfl

/-- C2 counterexample: starting from `create`, two synchronous acquisitions
followed by `setMaxConnections(1)` leave `liveCount = 2` with
`maximuConnections = 1 ≠ 0`, so the claimed invariant conjunction fails for
this sequence of acquire and configuration-mutation operations. -/
theorem pool_state_invariants_counterexample :
    ¬ poolInvariants "p" (runOps "p" (Sim.init 0 "p")
        [Op.acquireSync, Op.acquireSync, Op.setMaxTotal 1]) := by
  decide

/-- C2 (amended): for every sequence of acquire (both styles), release and
configuration-mutation operations on a pool starting from creation, in
which every `setMaxConnections` sets 0 or a bound at least the current
`connectionCount` and every `setMaxIdleConnections` sets a bound at least
the current idle-list size, the pool state always satisfies
`connectionCount = idle size + checked out`, `idle size ≤ maxIdleConnections`
and `maximuConnections = 0 ∨ connectionCount ≤ maximuConnections`. -/
theorem pool_state_invariants (factory : Nat) (pn : String) (ops : List Op)
    (hok : okTrace pn (Sim.init factory pn) ops = true) :
    poolInvariants pn (runOps pn (Sim.init factory pn) ops) :=
  (simInv_runOps pn ops _ (simInv_init factory pn) hok).1

set_option maxHeartbeats 1600000 in
/-- C2 witness: a concrete well-behaved trace exercising creation, reuse,
queuing, hand-off and idle return under the amended side conditions. -/
theorem pool_state_invariants_witness :
    okTrace "p" (Sim.init 0 "p")
      [Op.setMaxTotal 1, Op.acquireSync, Op.acquireCb 5 true false,
       Op.release 0 AState.Connected, Op.release 0 AState.Connected,
       Op.acquireSync] = true ∧
    poolInvariants "p" (runOps "p" (Sim.init 0 "p")
      [Op.setMaxTotal 1, Op.acquireSync, Op.acquireCb 5 true false,
       Op.release 0 AState.Connected, Op.release 0 AState.Connected,
       Op.acquireSync]) :=
  ⟨by decide, pool_state_invariants 0 "p" _ (by decide)⟩

/-- C3: on a pool found in the registry, both acquisition entry points
follow one decision procedure: a non-empty idle list is popped LIFO (the
most recently appended driver) and the reuse hook, when set, runs on the
resulting handle; an empty idle list with capacity left (`maximuConnections`
zero or `connectionCount` below it) increments `connectionCount`, wraps the
freshly created raw driver, and runs the setup hook when set; in both cases
the synchronous entry point returns the handle and the callback entry point
invokes the continuation with it immediately. -/
theorem acquisition_decision
    (reg : Registry) (pn : String) (iPool : APoolInternal) (freshId : Nat)
    (cb : Nat) (rg rn : Bool)
    (hf : Registry.find? reg pn = some iPool) :
    (∀ l d, iPool.pool = l ++ [d] →
      ((database pn freshId reg).db = some { driverId := d, poolName := pn } ∧
       Registry.find? (database pn freshId reg).reg pn = some { iPool with pool := l } ∧
       (database pn freshId reg).events =
         (match iPool.reuseCb with
          | some c => [Event.reuseHookRun c (some { driverId := d, poolName := pn })]
          | none => [])) ∧
      ((databaseCb (some cb) rg rn pn freshId reg).db =
         some { driverId := d, poolName := pn } ∧
       Registry.find? (databaseCb (some cb) rg rn pn freshId reg).reg pn =
         some { iPool with pool := l } ∧
       (databaseCb (some cb) rg rn pn freshId reg).events =
         (match iPool.reuseCb with
          | some c => [Event.reuseHookRun c (some { driverId := d, poolName := pn })]
          | none => []) ++
         [Event.contInvoked cb (some { driverId := d, poolName := pn })])) ∧
    (iPool.pool = [] →
     (iPool.maximuConnections = 0 ∨ iPool.connectionCount < iPool.maximuConnections) →
      ((database pn freshId reg).db = some { driverId := freshId, poolName := pn } ∧
       Registry.find? (database pn freshId reg).reg pn =
         some { iPool with connectionCount := iPool.connectionCount + 1 } ∧
       (database pn freshId reg).events =
         (match iPool.setupCb with
          | some c => [Event.setupHookRun c (some { driverId := freshId, poolName := pn })]
          | none => [])) ∧
      ((databaseCb (some cb) rg rn pn freshId reg).db =
         some { driverId := freshId, poolName := pn } ∧
       Registry.find? (databaseCb (some cb) rg rn pn freshId reg).reg pn =
         some { iPool with connectionCount := iPool.connectionCount + 1 } ∧
       (databaseCb (some cb) rg rn pn freshId reg).events =
         (match iPool.setupCb with
          | some c => [Event.setupHookRun c (some { driverId := freshId, poolName := pn })]
          | none => []) ++
         [Event.contInvoked cb (some { driverId := freshId, poolName := pn })])) := by
  constructor
  · intro l d hd
    have hlast : iPool.pool.getLast? = some d := by
      rw [hd]
      exact List.getLast?_concat l
    have hdrop : iPool.pool.dropLast = l := by
      rw [hd]
      exact List.dropLast_concat
    refine ⟨⟨?_, ?_, ?_⟩, ?_, ?_, ?_⟩
    · simp [database, hf, hlast]
    · simp only [database, hf, hlast]
      rw [hdrop]
      exact Registry.find?_update_self hf _
    · cases hr : iPool.reuseCb <;> simp [database, hf, hlast, hr]
    · simp [databaseCb, hf, hlast]
    · simp only [databaseCb, hf, hlast]
      rw [hdrop]
      exact Registry.find?_update_self hf _
    · cases hr : iPool.reuseCb <;> simp [databaseCb, hf, hlast, hr]
  · intro hempty hcap
    have hlast : iPool.pool.getLast? = none := by
      rw [hempty]
      rfl
    have hcond : ¬(iPool.maximuConnections ≠ 0 ∧
        iPool.maximuConnections ≤ iPool.connectionCount) := by
      rcases hcap with h | h
      · simp [h]
      · intro hc
        omega
    refine ⟨⟨?_, ?_, ?_⟩, ?_, ?_, ?_⟩
    · simp [database, hf, hlast, hcond]
    · simp only [database, hf, hlast, hcond, if_false]
      exact Registry.find?_update_self hf _
    · cases hsetup : iPool.setupCb <;> simp [database, hf, hlast, hcond, hsetup]
    · simp [databaseCb, hf, hlast, hcond]
    · simp only [databaseCb, hf, hlast, hcond, if_false]
      exact Registry.find?_update_self hf _
    · cases hsetup : iPool.setupCb <;> simp [databaseCb, hf, hlast, hcond, hsetup]

/-- C3 witness: LIFO reuse with reuse hook on a two-element idle list, and
creation with setup hook plus immediate continuation invocation on an empty
one. -/
theorem acquisition_decision_witness :
    (database "p" 9
      [("p", { driverFactory := 0, pool := [4, 5], connectionQueue := [],
               setupCb := some 2, reuseCb := some 3, maxIdleConnections := 1,
               maximuConnections := 0, connectionCount := 3 })]).db =
      some { driverId := 5, poolName := "p" } ∧
    (databaseCb (some 8) true false "p" 9
      [("p", { driverFactory := 0, pool := [4, 5], connectionQueue := [],
               setupCb := some 2, reuseCb := some 3, maxIdleConnections := 1,
               maximuConnections := 0, connectionCount := 3 })]).events =
      [Event.reuseHookRun 3 (some { driverId := 5, poolName := "p" }),
       Event.contInvoked 8 (some { driverId := 5, poolName := "p" })] ∧
    (database "p" 9
      [("p", { driverFactory := 0, pool := [], connectionQueue := [],
               setupCb := some 2, reuseCb := some 3, maxIdleConnections := 1,
               maximuConnections := 0, connectionCount := 3 })]).db =
      some { driverId := 9, poolName := "p" } ∧
    (databaseCb (some 8) true false "p" 9
      [("p", { driverFactory := 0, pool := [], connectionQueue := [],
               setupCb := some 2, reuseCb := some 3, maxIdleConnections := 1,
               maximuConnections := 0, connectionCount := 3 })]).events =
      [Event.setupHookRun 2 (some { driverId := 9, poolName := "p" }),
       Event.contInvoked 8 (some { driverId := 9, poolName := "p" })] :=
  ⟨(((acquisition_decision _ "p"
      { driverFactory := 0, pool := [4, 5], connectionQueue := [],
        setupCb := some 2, reuseCb := some 3, maxIdleConnections := 1,
        maximuConnections := 0, connectionCount := 3 } 9 8 true false
      (by decide)).1 [4] 5 rfl).1).1,
   (((acquisition_decision _ "p"
      { driverFactory := 0, pool := [4, 5], connectionQueue := [],
        setupCb := some 2, reuseCb := some 3, maxIdleConnections := 1,
        maximuConnections := 0, connectionCount := 3 } 9 8 true false
      (by decide)).1 [4] 5 rfl).2).2.2,
   (((acquisition_decision _ "p"
      { driverFactory := 0, pool := [], connectionQueue := [],
        setupCb := some 2, reuseCb := some 3, maxIdleConnections := 1,
        maximuConnections := 0, connectionCount := 3 } 9 8 true false
      (by decide)).2 rfl (Or.inl rfl)).1).1,
   (((acquisition_decision _ "p"
      { driverFactory := 0, pool := [], connectionQueue := [],
        setupCb := some 2, reuseCb := some 3, maxIdleConnections := 1,
        maximuConnections := 0, connectionCount := 3 } 9 8 true false
      (by decide)).2 rfl (Or.inl rfl)).2).2.2⟩

/-- C4: releasing a connected driver when every queued waiter is invalid
(or none is queued) destroys the driver and decrements `connectionCount`
when the idle list has reached `maxIdleConnections`, and otherwise appends
it to the idle list with `connectionCount` unchanged and no destruction;
in neither case is a waiter served. -/
theorem pushDatabaseBack_no_valid_waiter
    (reg : Registry) (pn : String) (iPool : APoolInternal) (driver : Nat)
    (observed : AState)
    (hf : Registry.find? reg pn = some iPool)
    (hobs : observed ≠ AState.Disconnected)
    (hq : ∀ c ∈ iPool.connectionQueue, validClient c = false) :
    ((iPool.maxIdleConnections ≤ (iPool.pool.length : Int)) →
      (pushDatabaseBack pn driver observed reg).events = [Event.destroyed driver] ∧
      (pushDatabaseBack pn driver observed reg).handOff = none ∧
      Registry.find? (pushDatabaseBack pn driver observed reg).reg pn =
        some { iPool with connectionQueue := [],
                          connectionCount := iPool.connectionCount - 1 }) ∧
    (((iPool.pool.length : Int) < iPool.maxIdleConnections) →
      (pushDatabaseBack pn driver observed reg).events = [] ∧
      (pushDatabaseBack pn driver observed reg).handOff = none ∧
      Registry.find? (pushDatabaseBack pn driver observed reg).reg pn =
        some { iPool with connectionQueue := [],
                          pool := iPool.pool ++ [driver] }) := by
  have hserve : serveQueue iPool.connectionQueue = none := serveQueue_none hq
  constructor
  · intro hidle
    refine ⟨?_, ?_, ?_⟩
    · simp [pushDatabaseBack, hf, hserve, hobs, hidle]
    · simp [pushDatabaseBack, hf, hserve, hobs, hidle]
    · simp only [pushDatabaseBack, hf, hserve, hobs, hidle, if_false, if_true]
      exact Registry.find?_update_self hf _
  · intro hidle
    have hidle' : ¬(iPool.maxIdleConnections ≤ (iPool.pool.length : Int)) := by omega
    refine ⟨?_, ?_, ?_⟩
    · simp [pushDatabaseBack, hf, hserve, hobs, hidle']
    · simp [pushDatabaseBack, hf, hserve, hobs, hidle']
    · simp only [pushDatabaseBack, hf, hserve, hobs, hidle', if_false]
      exact Registry.find?_update_self hf _

/-- C4 witness: with `maxIdleConnections = 1`, a release onto a full idle
list destroys and decrements, and the same release onto an empty idle list
appends with the count unchanged. -/
theorem pushDatabaseBack_no_valid_waiter_witness :
    ((pushDatabaseBack "p" 7 AState.Connected
        [("p", { driverFactory := 0, pool := [3], connectionQueue := [],
                 setupCb := none, reuseCb := none, maxIdleConnections := 1,
                 maximuConnections := 0, connectionCount := 2 })]).events =
      [Event.destroyed 7] ∧
     (pushDatabaseBack "p" 7 AState.Connected
        [("p", { driverFactory := 0, pool := [3], connectionQueue := [],
                 setupCb := none, reuseCb := none, maxIdleConnections := 1,
                 maximuConnections := 0, connectionCount := 2 })]).handOff = none ∧
     Registry.find? (pushDatabaseBack "p" 7 AState.Connected
        [("p", { driverFactory := 0, pool := [3], connectionQueue := [],
                 setupCb := none, reuseCb := none, maxIdleConnections := 1,
                 maximuConnections := 0, connectionCount := 2 })]).reg "p" =
      some { driverFactory := 0, pool := [3], connectionQueue := [],
             setupCb := none, reuseCb := none, maxIdleConnections := 1,
             maximuConnections := 0, connectionCount := 1 }) ∧
    ((pushDatabaseBack "p" 7 AState.Connected
        [("p", { driverFactory := 0, pool := [], connectionQueue := [],
                 setupCb := none, reuseCb := none, maxIdleConnections := 1,
                 maximuConnections := 0, connectionCount := 2 })]).events = [] ∧
     (pushDatabaseBack "p" 7 AState.Connected
        [("p", { driverFactory := 0, pool := [], connectionQueue := [],
                 setupCb := none, reuseCb := none, maxIdleConnections := 1,
                 maximuConnections := 0, connectionCount := 2 })]).handOff = none ∧
     Registry.find? (pushDatabaseBack "p" 7 AState.Connected
        [("p", { driverFactory := 0, pool := [], connectionQueue := [],
                 setupCb := none, reuseCb := none, maxIdleConnections := 1,
                 maximuConnections := 0, connectionCount := 2 })]).reg "p" =
      some { driverFactory := 0, pool := [7], connectionQueue := [],
             setupCb := none, reuseCb := none, maxIdleConnections := 1,
             maximuConnections := 0, connectionCount := 2 }) :=
  ⟨(pushDatabaseBack_no_valid_waiter _ "p"
      { driverFactory := 0, pool := [3], connectionQueue := [],
        setupCb := none, reuseCb := none, maxIdleConnections := 1,
        maximuConnections := 0, connectionCount := 2 } 7 AState.Connected
      (by decide) (by decide) (by decide)).1 (by decide),
   (pushDatabaseBack_no_valid_waiter _ "p"
      { driverFactory := 0, pool := [], connectionQueue := [],
        setupCb := none, reuseCb := none, maxIdleConnections := 1,
        maximuConnections := 0, connectionCount := 2 } 7 AState.Connected
      (by decide) (by decide) (by decide)).2 (by decide)⟩

/-- C5: releasing a driver observed disconnected into an existing pool
destroys it and decrements `connectionCount`, hands nothing to any waiter,
and leaves the waiter queue and idle list exactly as they were. -/
theorem pushDatabaseBack_disconnected
    (reg : Registry) (pn : String) (iPool : APoolInternal) (driver : Nat)
    (hf : Registry.find? reg pn = some iPool) :
    (pushDatabaseBack pn driver AState.Disconnected reg).events =
      [Event.destroyed driver] ∧
    (pushDatabaseBack pn driver AState.Disconnected reg).handOff = none ∧
    Registry.find? (pushDatabaseBack pn driver AState.Disconnected reg).reg pn =
      some { iPool with connectionCount := iPool.connectionCount - 1 } := by
  refine ⟨?_, ?_, ?_⟩
  · simp [pushDatabaseBack, hf]
  · simp [pushDatabaseBack, hf]
  · simp only [pushDatabaseBack, hf, if_true]
    exact Registry.find?_update_self hf _

/-- C5 witness: a disconnected release with a waiter queued and an idle
driver present leaves both untouched. -/
theorem pushDatabaseBack_disconnected_witness :
    (pushDatabaseBack "p" 7 AState.Disconnected
        [("p", { driverFactory := 0, pool := [3],
                 connectionQueue :=
                   [{ cb := some 9, receiverNull := false, checkReceiver := true }],
                 setupCb := none, reuseCb := none, maxIdleConnections := 2,
                 maximuConnections := 0, connectionCount := 2 })]).events =
      [Event.destroyed 7] ∧
    (pushDatabaseBack "p" 7 AState.Disconnected
        [("p", { driverFactory := 0, pool := [3],
                 connectionQueue :=
                   [{ cb := some 9, receiverNull := false, checkReceiver := true }],
                 setupCb := none, reuseCb := none, maxIdleConnections := 2,
                 maximuConnections := 0, connectionCount := 2 })]).handOff = none ∧
    Registry.find? (pushDatabaseBack "p" 7 AState.Disconnected
        [("p", { driverFactory := 0, pool := [3],
                 connectionQueue :=
                   [{ cb := some 9, receiverNull := false, checkReceiver := true }],
                 setupCb := none, reuseCb := none, maxIdleConnections := 2,
                 maximuConnections := 0, connectionCount := 2 })]).reg "p" =
      some { driverFactory := 0, pool := [3],
             connectionQueue :=
               [{ cb := some 9, receiverNull := false, checkReceiver := true }],
             setupCb := none, reuseCb := none, maxIdleConnections := 2,
             maximuConnections := 0, connectionCount := 1 } :=
  pushDatabaseBack_disconnected _ "p"
    { driverFactory := 0, pool := [3],
      connectionQueue :=
        [{ cb := some 9, receiverNull := false, checkReceiver := true }],
      setupCb := none, reuseCb := none, maxIdleConnections := 2,
      maximuConnections := 0, connectionCount := 2 } 7 (by decide)

/-- C6: a release whose originating pool has been removed destroys the
driver and returns with the registry exactly as `remove` left it: no
counter is touched, no entry is created, no waiter is served. -/
theorem pushDatabaseBack_after_remove
    (reg : Registry) (pn : String) (driver : Nat) (observed : AState) :
    pushDatabaseBack pn driver observed (remove pn reg).1 =
      { reg := (remove pn reg).1
        events := [Event.destroyed driver]
        handOff := none } := by
  simp [pushDatabaseBack, remove, Registry.find?_removeKey_self]

/-- C7: synchronous acquisition on a pool with an empty idle list, nonzero
`maximuConnections` and `connectionCount` at the bound changes nothing,
emits the pool-exhausted warning, and yields a handle backed by no driver. -/
theorem database_pool_exhausted
    (reg : Registry) (pn : String) (iPool : APoolInternal) (freshId : Nat)
    (hf : Registry.find? reg pn = some iPool)
    (hempty : iPool.pool = [])
    (hmax : iPool.maximuConnections ≠ 0)
    (hcount : iPool.maximuConnections ≤ iPool.connectionCount) :
    database pn freshId reg =
      { db := none, reg := reg, events := [Event.warnMaxReached pn] } := by
  have hlast : iPool.pool.getLast? = none := by
    rw [hempty]
    rfl
  simp [database, hf, hlast, hmax, hcount]

/-- C7 witness: a pool at its capacity of 2 with nothing idle. -/
theorem database_pool_exhausted_witness :
    database "p" 9
      [("p", { driverFactory := 0, pool := [], connectionQueue := [],
               setupCb := none, reuseCb := none, maxIdleConnections := 1,
               maximuConnections := 2, connectionCount := 2 })] =
      { db := none
        reg := [("p", { driverFactory := 0, pool := [], connectionQueue := [],
                        setupCb := none, reuseCb := none, maxIdleConnections := 1,
                        maximuConnections := 2, connectionCount := 2 })]
        events := [Event.warnMaxReached "p"] } :=
  database_pool_exhausted _ "p"
    { driverFactory := 0, pool := [], connectionQueue := [],
      setupCb := none, reuseCb := none, maxIdleConnections := 1,
      maximuConnections := 2, connectionCount := 2 } 9
    (by decide) rfl (by decide) (by decide)

/-- C8: `create` on an already-registered name returns the registry
unchanged — the existing pool state, entry set and everything in them are
exactly as before — and only emits the duplicate-pool warning. -/
theorem create_duplicate_noop
    (reg : Registry) (pn : String) (factory : Nat) (iPool : APoolInternal)
    (hf : Registry.find? reg pn = some iPool) :
    create factory pn reg = (reg, [Event.warnDuplicatePool pn]) := by
  simp [create, hf]

/-- C8 witness: re-creating "p" with a different factory leaves the first
pool state authoritative. -/
theorem create_duplicate_noop_witness :
    create 1 "p"
      [("p", { driverFactory := 0, pool := [4], connectionQueue := [],
               setupCb := some 2, reuseCb := none, maxIdleConnections := 5,
               maximuConnections := 3, connectionCount := 2 })] =
      ([("p", { driverFactory := 0, pool := [4], connectionQueue := [],
                setupCb := some 2, reuseCb := none, maxIdleConnections := 5,
                maximuConnections := 3, connectionCount := 2 })],
       [Event.warnDuplicatePool "p"]) :=
  create_duplicate_noop _ "p" 1
    { driverFactory := 0, pool := [4], connectionQueue := [],
      setupCb := some 2, reuseCb := none, maxIdleConnections := 5,
      maximuConnections := 3, connectionCount := 2 } (by decide)

/-- C9: no release ever runs a lifecycle hook: the events of any
`pushDatabaseBack` call — in particular one that hands the driver to a
queued waiter — contain no setup-hook and no reuse-hook invocation. -/
theorem pushDatabaseBack_runs_no_hooks
    (pn : String) (driver : Nat) (observed : AState) (reg : Registry) :
    List.filter Event.isHook (pushDatabaseBack pn driver observed reg).events = [] ∧
    ∀ c db, Event.setupHookRun c db ∉ (pushDatabaseBack pn driver observed reg).events ∧
            Event.reuseHookRun c db ∉ (pushDatabaseBack pn driver observed reg).events := by
  cases hfind : Registry.find? reg pn with
  | none => simp [pushDatabaseBack, hfind, Event.isHook]
  | some p =>
      cases observed with
      | Disconnected => simp [pushDatabaseBack, hfind, Event.isHook]
      | Connected =>
          cases hserve : serveQueue p.connectionQueue with
          | some pr =>
              obtain ⟨cbv, rest⟩ := pr
              simp [pushDatabaseBack, hfind, hserve, Event.isHook]
          | none =>
              by_cases hidle : p.maxIdleConnections ≤ (p.pool.length : Int)
              · simp [pushDatabaseBack, hfind, hserve, hidle, Event.isHook]
              · simp [pushDatabaseBack, hfind, hserve, hidle, Event.isHook]

/-- C10: `remove` erases exactly the named registry entry; it destroys no
driver and invokes no queued continuation, whatever idle drivers or waiters
the removed pool held, and other pools are untouched. -/
theorem remove_destroys_nothing (pn : String) (reg : Registry) :
    Registry.find? (remove pn reg).1 pn = none ∧
    (∀ q, q ≠ pn → Registry.find? (remove pn reg).1 q = Registry.find? reg q) ∧
    (∀ d, Event.destroyed d ∉ (remove pn reg).2) ∧
    (∀ c db, Event.contInvoked c db ∉ (remove pn reg).2) := by
  refine ⟨Registry.find?_removeKey_self reg pn, ?_, ?_, ?_⟩
  · intro q hq
    exact Registry.find?_removeKey_other reg hq
  · intro d
    simp [remove]
  · intro c db
    simp [remove]

/-- C10 witness: removing "a" (which holds idle drivers and a waiter)
erases it, leaves "b" intact, and emits no destruction or continuation
invocation. -/
theorem remove_destroys_nothing_witness :
    Registry.find? (remove "a"
      [("a", { driverFactory := 0, pool := [1, 2],
               connectionQueue :=
                 [{ cb := some 9, receiverNull := false, checkReceiver := true }],
               setupCb := none, reuseCb := none, maxIdleConnections := 2,
               maximuConnections := 0, connectionCount := 3 }),
       ("b", APoolInternal.fresh 1)]).1 "a" = none ∧
    Registry.find? (remove "a"
      [("a", { driverFactory := 0, pool := [1, 2],
               connectionQueue :=
                 [{ cb := some 9, receiverNull := false, checkReceiver := true }],
               setupCb := none, reuseCb := none, maxIdleConnections := 2,
               maximuConnections := 0, connectionCount := 3 }),
       ("b", APoolInternal.fresh 1)]).1 "b" =
      Registry.find?
      [("a", { driverFactory := 0, pool := [1, 2],
               connectionQueue :=
                 [{ cb := some 9, receiverNull := false, checkReceiver := true }],
               setupCb := none, reuseCb := none, maxIdleConnections := 2,
               maximuConnections := 0, connectionCount := 3 }),
       ("b", APoolInternal.fresh 1)] "b" ∧
    Event.destroyed 1 ∉ (remove "a"
      [("a", { driverFactory := 0, pool := [1, 2],
               connectionQueue :=
                 [{ cb := some 9, receiverNull := false, checkReceiver := true }],
               setupCb := none, reuseCb := none, maxIdleConnections := 2,
               maximuConnections := 0, connectionCount := 3 }),
       ("b", APoolInternal.fresh 1)]).2 ∧
    Event.contInvoked 9 none ∉ (remove "a"
      [("a", { driverFactory := 0, pool := [1, 2],
               connectionQueue :=
                 [{ cb := some 9, receiverNull := false, checkReceiver := true }],
               setupCb := none, reuseCb := none, maxIdleConnections := 2,
               maximuConnections := 0, connectionCount := 3 }),
       ("b", APoolInternal.fresh 1)]).2 :=
  ⟨(remove_destroys_nothing "a" _).1,
   (remove_destroys_nothing "a" _).2.1 "b" (by decide),
   (remove_destroys_nothing "a" _).2.2.1 1,
   (remove_destroys_nothing "a" _).2.2.2 9 none⟩

end APool
